import Mathlib

/-!
Verification of the Wallpaper-Rotator program (`wallpaper_rotator.py`).

The Python program is a single class `WallpaperRotator`.  Its state-carrying
operations read the image listing from disk and the persisted state from a
JSON state file, compute, and write the updated state back.  We embed the
pure computational core shallowly:

* the image listing obtained from `get_image_files()` is passed as a
  `List String` argument (the sorted file paths of the supported images);
* the persisted state file is modelled by `StateFile`, and the state record
  (a JSON object read with per-field `.get` defaults) by `RotationState`;
* `random.choice` is modelled by a choice function `List Nat → Nat`
  together with the hypothesis that it returns a member of its argument;
* a function that would call `save_state` returns the state it persists;
  returning `none` (or raising before the save) means no write happens;
* the two wallpaper-applying tiers are driven by the outcome of the
  PowerShell subprocess (`PSRun`) and of the native `SystemParametersInfoW`
  call (`NativeCall`), both of which are external effects.
-/

/-- Persisted rotation state.  Mirrors the JSON state dict of the program:
`current_index` (int), `last_wallpaper` (string or null), `image_count`
(int), `order` (string).  Field defaults used by the program's `.get` calls
are reflected in `default_state`. -/
structure RotationState where
  current_index : Int
  last_wallpaper : Option String
  image_count : Int
  order : String
deriving DecidableEq

/-- The `default_state` dict built at the top of `load_state`. -/
def default_state : RotationState :=
  { current_index := -1
    last_wallpaper := none
    image_count := 0
    order := "sequential" }

/-- Outcome of attempting to read the state file, as distinguished by
`load_state`: the file does not exist, opening or reading it raises
`IOError`, its content fails to parse as JSON (`json.JSONDecodeError`), or
it parses to a well-formed state object (whose missing fields are defaulted
at the `.get` read sites). -/
inductive StateFile where
  | missing : StateFile
  | ioError : StateFile
  | jsonError : StateFile
  | valid : RotationState → StateFile
deriving DecidableEq

/-- Embedding of `WallpaperRotator.load_state`: the default dict is returned
when the file is missing, and the `try`/`except (json.JSONDecodeError,
IOError)` returns it on a read or parse failure; a successful parse is
returned as-is. -/
def load_state : StateFile → RotationState
  | .missing => default_state
  | .ioError => default_state
  | .jsonError => default_state
  | .valid st => st

/-- Embedding of the drift check at the top of `get_next_wallpaper`
(lines 183-188): `current_index = state.get("current_index", -1)`, reset to
`-1` when `len(image_files) != state.get("image_count", 0)`. -/
def drift_checked_index (image_files : List String) (state : RotationState) : Int :=
  if (image_files.length : Int) ≠ state.image_count then -1
  else state.current_index

/-- Embedding of the index selection of `get_next_wallpaper` (lines
190-201).  `choice` models `random.choice`; the candidate list is
`[i for i in range(len(image_files)) if i != current_index]`.  Any order
string other than `"random"` takes the sequential branch, exactly as the
program's `if order == "random": ... else: ...`.  Python's `%` on a
positive modulus agrees with `Int.emod`. -/
def next_index_for (n : Nat) (current_index : Int) (order : String)
    (choice : List Nat → Nat) : Nat :=
  if order = "random" then
    if n > 1 then
      choice ((List.range n).filter (fun i => decide ((i : Int) ≠ current_index)))
    else 0
  else
    ((current_index + 1) % (n : Int)).toNat

/-- Embedding of `WallpaperRotator.get_next_wallpaper`.  Returns `none`
when the listing is empty (the early `return None`, before any state is
loaded or saved).  Otherwise returns the selected wallpaper together with
the updated state passed to `save_state` (`state.update({...})` at lines
205-214). -/
def get_next_wallpaper (image_files : List String) (state : RotationState)
    (order : String) (choice : List Nat → Nat) : Option (String × RotationState) :=
  if image_files.isEmpty then none
  else
    let current_index := drift_checked_index image_files state
    let next_index := next_index_for image_files.length current_index order choice
    let next_wallpaper := image_files.getD next_index ""
    some (next_wallpaper,
      { state with
        current_index := (next_index : Int)
        last_wallpaper := some next_wallpaper
        image_count := (image_files.length : Int)
        order := order })

/-- Embedding of `WallpaperRotator.set_order`.  The argument `state` is the
state `load_state` would return.  `none` models the `ValueError` raised
before the state is loaded or saved (so the persisted state is untouched);
`some st` is the state passed to `save_state`. -/
def set_order (state : RotationState) (order : String) : Option RotationState :=
  if order ∉ (["sequential", "random"] : List String) then none
  else some { state with order := order }

/-- Embedding of `WallpaperRotator.reset_rotation`: load, set
`current_index = -1`, save.  The result is the state passed to
`save_state`. -/
def reset_rotation (state : RotationState) : RotationState :=
  { state with current_index := -1 }

/-- Character-list helper for Python's substring test: does the first list
start with the second? -/
def charsStartWith : List Char → List Char → Bool
  | _, [] => true
  | [], _ :: _ => false
  | c :: cs, d :: ds => c == d && charsStartWith cs ds

/-- Character-list helper for Python's substring test: does the needle
occur somewhere in the haystack? -/
def charsContain (needle : List Char) : List Char → Bool
  | [] => needle.isEmpty
  | c :: cs => charsStartWith (c :: cs) needle || charsContain needle cs

/-- Python's substring test `needle in hay`, on the underlying character
lists: some suffix of the haystack starts with the needle. -/
def strContains (hay needle : String) : Bool :=
  charsContain needle.data hay.data

/-- Outcome of the PowerShell subprocess run inside
`_set_wallpaper_all_desktops_powershell`: it completed with a return code,
stdout and stderr; it exceeded the 30-second timeout
(`subprocess.TimeoutExpired`); or some other exception was raised. -/
inductive PSRun where
  | completed : Int → String → String → PSRun
  | timedOut : PSRun
  | execError : PSRun
deriving DecidableEq

/-- Embedding of `_set_wallpaper_all_desktops_powershell` (lines 119-172):
success iff the subprocess exits 0 with `SUCCESS` in its stdout; every
other branch (module missing, command missing, other PowerShell error,
timeout, execution error) prints a message and returns `False`. -/
def set_wallpaper_all_desktops_powershell (run : PSRun) : Bool :=
  match run with
  | .completed returncode stdout _ =>
    if returncode = 0 ∧ strContains stdout "SUCCESS" then true
    else if strContains stdout "MODULE_NOT_FOUND" then false
    else if strContains stdout "COMMAND_NOT_FOUND" then false
    else false
  | .timedOut => false
  | .execError => false

/-- Outcome of the native fallback `SystemParametersInfoW` call: either it
returns an integer `result` (the call succeeds as a call), or an exception
is raised during the fallback (caught by the `except` of `set_wallpaper`,
which returns `False`). -/
inductive NativeCall where
  | ok : Int → NativeCall
  | raised : NativeCall
deriving DecidableEq

/-- Success of the native single-desktop tier: `result != 0`, and `False`
when the call raised. -/
def native_call_succeeded : NativeCall → Bool
  | .ok result => decide (result ≠ 0)
  | .raised => false

/-- The two tiers of the wallpaper applier. -/
inductive Tier where
  | multi : Tier
  | single : Tier
deriving DecidableEq

/-- Embedding of `WallpaperRotator.set_wallpaper` (lines 95-117),
instrumented with the list of tiers attempted, in order.  The PowerShell
tier is tried first; only if it returns `False` is the native
single-desktop call made (`result != 0` decides its success, and the
surrounding `except` turns an exception into `False`). -/
def set_wallpaper_run (run : PSRun) (native : NativeCall) : Bool × List Tier :=
  if set_wallpaper_all_desktops_powershell run then
    (true, [Tier.multi])
  else
    match native with
    | .ok result => (decide (result ≠ 0), [Tier.multi, Tier.single])
    | .raised => (false, [Tier.multi, Tier.single])

/-- The boolean result of `set_wallpaper`: the success indicator returned
to the caller. -/
def set_wallpaper (run : PSRun) (native : NativeCall) : Bool :=
  (set_wallpaper_run run native).1

/-- Iterated sequential rotation: `rotateN files choice order k` is the
persisted state after `k` calls to `get_next_wallpaper`, starting from the
default state (no prior state file).  A call that returns `none` leaves the
state unchanged (no save happens). -/
def rotateN (files : List String) (choice : List Nat → Nat) (order : String) :
    Nat → RotationState
  | 0 => default_state
  | k + 1 =>
    match get_next_wallpaper files (rotateN files choice order k) order choice with
    | some (_, st) => st
    | none => rotateN files choice order k

/-- The invariant of §3 of the spec on a persisted state: `current_index`
is `-1` or strictly below the persisted `image_count`. -/
def stateInvariant (st : RotationState) : Prop :=
  st.current_index = -1 ∨ st.current_index < st.image_count

instance (st : RotationState) : Decidable (stateInvariant st) := by
  unfold stateInvariant
  infer_instance

/-- A model of `random.choice` used to instantiate theorems on concrete
inputs: pick the head of the candidate list. -/
def headChoice : List Nat → Nat := fun l => l.headD 0

-- Helper lemmas -------------------------------------------------------------

theorem headChoice_mem (l : List Nat) (h : l ≠ []) : headChoice l ∈ l := by
  cases l with
  | nil => exact absurd rfl h
  | cons a t => simp [headChoice]

theorem emod_add_one_toNat_lt (idx : Int) (n : Nat) (hn : 0 < n) :
    ((idx + 1) % (n : Int)).toNat < n := by
  have h0 : (0 : Int) < (n : Int) := by exact_mod_cast hn
  have h1 := Int.emod_lt_of_pos (idx + 1) h0
  have h2 := Int.emod_nonneg (idx + 1) (ne_of_gt h0)
  omega

theorem candidates_ne_nil (n : Nat) (idx : Int) (hn : 1 < n) :
    (List.range n).filter (fun (i : Nat) => decide ((i : Int) ≠ idx)) ≠ [] := by
  intro hnil
  rw [List.filter_eq_nil_iff] at hnil
  have h0 := hnil 0 (List.mem_range.mpr (by omega))
  have h1 := hnil 1 (List.mem_range.mpr (by omega))
  simp only [decide_eq_true_eq, not_not] at h0 h1
  omega

theorem next_index_for_lt (n : Nat) (idx : Int) (order : String)
    (choice : List Nat → Nat) (hn : 0 < n)
    (hc : ∀ l : List Nat, l ≠ [] → choice l ∈ l) :
    next_index_for n idx order choice < n := by
  unfold next_index_for
  split_ifs with ho h1
  · have hmem := hc _ (candidates_ne_nil n idx h1)
    exact List.mem_range.mp (List.mem_filter.mp hmem).1
  · omega
  · exact emod_add_one_toNat_lt idx n hn

theorem next_index_sequential_neg_one (n : Nat) (choice : List Nat → Nat) :
    next_index_for n (-1) "sequential" choice = 0 := by
  unfold next_index_for
  rw [if_neg (by decide : ¬("sequential" = "random"))]
  norm_num

theorem get_next_sequential_from_reset_index (files : List String)
    (st : RotationState) (choice : List Nat → Nat) (hne : files ≠ [])
    (hdc : drift_checked_index files st = -1) :
    (get_next_wallpaper files st "sequential" choice).map Prod.fst =
      some (files.getD 0 "") := by
  simp only [get_next_wallpaper]
  rw [if_neg (by simpa using hne)]
  rw [hdc, next_index_sequential_neg_one]
  simp

-- Claim theorems ------------------------------------------------------------

/-- C5: with an empty image listing, `get_next_wallpaper` returns nothing,
before any state is loaded or saved, so the persisted state is untouched
(there is no `some`-component to pass to `save_state`). -/
theorem empty_listing_no_rotation (state : RotationState) (order : String)
    (choice : List Nat → Nat) :
    get_next_wallpaper [] state order choice = none := rfl

/-- C4: `load_state` is total, and on each of its three failure modes —
missing file, `IOError` while reading, content that fails to parse as
JSON — it returns the default state: index `-1`, no last wallpaper,
image count `0`, sequential order. -/
theorem load_state_failure_defaults (f : StateFile)
    (h : f = StateFile.missing ∨ f = StateFile.ioError ∨ f = StateFile.jsonError) :
    load_state f =
      { current_index := -1
        last_wallpaper := none
        image_count := 0
        order := "sequential" } := by
  rcases h with h | h | h <;> subst h <;> rfl

theorem load_state_failure_defaults_witness :
    load_state StateFile.jsonError =
      { current_index := -1
        last_wallpaper := none
        image_count := 0
        order := "sequential" } :=
  load_state_failure_defaults StateFile.jsonError (Or.inr (Or.inr rfl))

/-- C7: `set_order` rejects any order outside {sequential, random} before
the state is loaded or saved (so the persisted state is unchanged), and for
a member of the set it overwrites exactly the `order` field of the loaded
state and persists the result. -/
theorem set_order_validates (st : RotationState) (order : String) :
    (order ≠ "sequential" ∧ order ≠ "random" → set_order st order = none) ∧
    (order = "sequential" ∨ order = "random" →
      set_order st order = some { st with order := order }) := by
  constructor
  · intro h
    simp [set_order, h.1, h.2]
  · intro h
    rcases h with h | h <;> simp [set_order, h]

theorem set_order_validates_witness :
    set_order default_state "alphabetical" = none ∧
    set_order default_state "random" =
      some { default_state with order := "random" } :=
  ⟨(set_order_validates default_state "alphabetical").1 (by decide),
   (set_order_validates default_state "random").2 (Or.inr rfl)⟩

/-- C2: when the live listing's length differs from the persisted
`image_count`, `get_next_wallpaper` discards the persisted `current_index`
(the drift-checked index is `-1`), and the subsequent sequential selection
therefore returns the image at index 0 of the new listing. -/
theorem drift_resets_index (files : List String) (st : RotationState)
    (choice : List Nat → Nat) (hne : files ≠ [])
    (hd : (files.length : Int) ≠ st.image_count) :
    drift_checked_index files st = -1 ∧
    (get_next_wallpaper files st "sequential" choice).map Prod.fst =
      some (files.getD 0 "") := by
  have hdc : drift_checked_index files st = -1 := if_pos hd
  exact ⟨hdc, get_next_sequential_from_reset_index files st choice hne hdc⟩

theorem drift_resets_index_witness :
    drift_checked_index ["a", "b"]
        { current_index := 1, last_wallpaper := none,
          image_count := 5, order := "sequential" } = -1 ∧
    (get_next_wallpaper ["a", "b"]
        { current_index := 1, last_wallpaper := none,
          image_count := 5, order := "sequential" }
        "sequential" headChoice).map Prod.fst = some (["a", "b"].getD 0 "") :=
  drift_resets_index ["a", "b"] _ headChoice (by decide) (by decide)

/-- C8: `reset_rotation` sets the persisted `current_index` to `-1`, and a
sequential `get_next_wallpaper` from any state so reset selects the image
at index 0 of the live listing, whether or not drift is detected. -/
theorem reset_then_sequential_first (files : List String) (st : RotationState)
    (choice : List Nat → Nat) (hne : files ≠ []) :
    (reset_rotation st).current_index = -1 ∧
    (get_next_wallpaper files (reset_rotation st) "sequential" choice).map
      Prod.fst = some (files.getD 0 "") := by
  refine ⟨rfl, ?_⟩
  apply get_next_sequential_from_reset_index files _ choice hne
  unfold drift_checked_index reset_rotation
  split_ifs <;> rfl

theorem reset_then_sequential_first_witness :
    (reset_rotation
        { current_index := 2, last_wallpaper := some "c",
          image_count := 3, order := "sequential" }).current_index = -1 ∧
    (get_next_wallpaper ["a", "b", "c"]
        (reset_rotation
          { current_index := 2, last_wallpaper := some "c",
            image_count := 3, order := "sequential" })
        "sequential" headChoice).map Prod.fst =
      some (["a", "b", "c"].getD 0 "") :=
  reset_then_sequential_first ["a", "b", "c"] _ headChoice (by decide)

theorem get_next_eq (files : List String) (st : RotationState) (order : String)
    (ch : List Nat → Nat) (hne : files ≠ []) :
    get_next_wallpaper files st order ch =
      some (files.getD
          (next_index_for files.length (drift_checked_index files st) order ch) "",
        { current_index :=
            (next_index_for files.length (drift_checked_index files st) order ch : Int)
          last_wallpaper := some (files.getD
            (next_index_for files.length (drift_checked_index files st) order ch) "")
          image_count := (files.length : Int)
          order := order }) := by
  simp only [get_next_wallpaper]
  rw [if_neg (by simpa using hne)]

theorem drift_checked_default (files : List String) (hne : files ≠ []) :
    drift_checked_index files default_state = -1 := by
  have hl : 0 < files.length := List.length_pos.mpr hne
  unfold drift_checked_index default_state
  rw [if_pos]
  simp only
  exact_mod_cast Nat.pos_iff_ne_zero.mp hl

theorem seq_step_mod (k N : Nat) :
    ((((k % N : Nat) : Int) + 1) % (N : Int)).toNat = (k + 1) % N := by
  have e1 : ((k % N : Nat) : Int) + 1 = ((k % N + 1 : Nat) : Int) := by push_cast; ring
  have e2 : (((k % N + 1 : Nat) : Int)) % ((N : Nat) : Int) =
      (((k % N + 1) % N : Nat) : Int) := (Int.ofNat_emod _ _).symm
  rw [e1, e2, Int.toNat_natCast, Nat.mod_add_mod]

theorem rotateN_seq_state (files : List String) (ch : List Nat → Nat)
    (hne : files ≠ []) (k : Nat) :
    (rotateN files ch "sequential" (k + 1)).current_index =
      ((k % files.length : Nat) : Int) ∧
    (rotateN files ch "sequential" (k + 1)).image_count = (files.length : Int) := by
  induction k with
  | zero =>
    simp only [rotateN]
    rw [get_next_eq files default_state "sequential" ch hne,
      drift_checked_default files hne, next_index_sequential_neg_one]
    simp
  | succ k ih =>
    obtain ⟨hidx, hcnt⟩ := ih
    simp only [rotateN] at hidx hcnt ⊢
    rw [get_next_eq files _ "sequential" ch hne]
    have hdc : drift_checked_index files
        (match get_next_wallpaper files (rotateN files ch "sequential" k)
            "sequential" ch with
          | some (_, st) => st
          | none => rotateN files ch "sequential" k) =
        ((k % files.length : Nat) : Int) := by
      unfold drift_checked_index
      rw [if_neg (by rw [hcnt]; exact fun h => h rfl), hidx]
    rw [hdc]
    unfold next_index_for
    rw [if_neg (by decide : ¬("sequential" = "random"))]
    rw [seq_step_mod]
    simp

/-- C1: with no prior persisted state, sequential rotation steps through
the listing in order: the (k+1)-th call to `get_next_wallpaper` (starting
from the default state) returns the listing entry at index `k mod N`, so
the first call selects image 0, the second image 1, and the (N+1)-th wraps
back to image 0; each call selects `(previous_index + 1) mod N`. -/
theorem sequential_rotation_cycles (files : List String) (ch : List Nat → Nat)
    (hne : files ≠ []) (k : Nat) :
    (get_next_wallpaper files (rotateN files ch "sequential" k)
      "sequential" ch).map Prod.fst =
      some (files.getD (k % files.length) "") := by
  cases k with
  | zero =>
    rw [show rotateN files ch "sequential" 0 = default_state from rfl,
      get_next_eq files default_state "sequential" ch hne,
      drift_checked_default files hne, next_index_sequential_neg_one]
    simp [Nat.zero_mod]
  | succ k =>
    obtain ⟨hidx, hcnt⟩ := rotateN_seq_state files ch hne k
    rw [get_next_eq files _ "sequential" ch hne]
    have hdc : drift_checked_index files (rotateN files ch "sequential" (k + 1)) =
        ((k % files.length : Nat) : Int) := by
      unfold drift_checked_index
      rw [if_neg (by rw [hcnt]; exact fun h => h rfl), hidx]
    rw [hdc]
    unfold next_index_for
    rw [if_neg (by decide : ¬("sequential" = "random")), seq_step_mod]
    simp

theorem sequential_rotation_cycles_witness :
    (get_next_wallpaper ["a", "b", "c"]
        (rotateN ["a", "b", "c"] headChoice "sequential" 3)
        "sequential" headChoice).map Prod.fst =
      some (["a", "b", "c"].getD (3 % ["a", "b", "c"].length) "") :=
  sequential_rotation_cycles ["a", "b", "c"] headChoice (by decide) 3

/-- C10: for any non-empty listing and arbitrary integer persisted index,
the index computed by `get_next_wallpaper` is strictly below the listing
length (so the final indexing is in bounds), under any order string and
any model of `random.choice` that returns a member of its argument; and
when the listing has more than one image, the candidate list handed to
`random.choice` is never empty. -/
theorem index_computation_in_bounds (files : List String) (idx : Int)
    (order : String) (ch : List Nat → Nat) (hne : files ≠ [])
    (hc : ∀ l : List Nat, l ≠ [] → ch l ∈ l) :
    next_index_for files.length idx order ch < files.length ∧
    (1 < files.length →
      (List.range files.length).filter
        (fun (i : Nat) => decide ((i : Int) ≠ idx)) ≠ []) :=
  ⟨next_index_for_lt files.length idx order ch (List.length_pos.mpr hne) hc,
   fun h => candidates_ne_nil files.length idx h⟩

theorem index_computation_in_bounds_witness :
    next_index_for (["a", "b"] : List String).length 7 "random" headChoice <
      (["a", "b"] : List String).length ∧
    (1 < (["a", "b"] : List String).length →
      (List.range (["a", "b"] : List String).length).filter
        (fun (i : Nat) => decide ((i : Int) ≠ 7)) ≠ []) :=
  index_computation_in_bounds ["a", "b"] 7 "random" headChoice (by decide)
    headChoice_mem

/-- C3 counterexample: the claim quantifies over every persisted
`current_index`, but when the listing length differs from the persisted
`image_count` the drift reset re-admits the persisted index.  Concretely,
with persisted state `{current_index: 0, image_count: 3}` and a live
listing of 2 images, index 0 is in the candidate list handed to
`random.choice`, and the (legitimate, member-returning) choice `headChoice`
makes the random-order call return index 0 — equal to the persisted
`current_index`, an immediate repeat. -/
theorem random_no_repeat_counterexample :
    (0 : Nat) ∈ (List.range (["a", "b"] : List String).length).filter
        (fun (i : Nat) => decide ((i : Int) ≠
          drift_checked_index ["a", "b"]
            { current_index := 0, last_wallpaper := none,
              image_count := 3, order := "random" })) ∧
    get_next_wallpaper ["a", "b"]
        { current_index := 0, last_wallpaper := none,
          image_count := 3, order := "random" } "random" headChoice =
      some ("a",
        { current_index := 0, last_wallpaper := some "a",
          image_count := 2, order := "random" }) := by decide

/-- C3 amended: provided the live listing's length equals the persisted
`image_count` (no drift), a random-order call on a listing with more than
one image never selects the persisted `current_index` — the chosen index
is drawn only from indices different from the current one; and on a
one-image listing index 0 is chosen. -/
theorem random_no_repeat_amended :
    (∀ (files : List String) (st : RotationState) (ch : List Nat → Nat)
        (wp : String) (st' : RotationState),
      (∀ l : List Nat, l ≠ [] → ch l ∈ l) →
      1 < files.length →
      (files.length : Int) = st.image_count →
      get_next_wallpaper files st "random" ch = some (wp, st') →
      st'.current_index ≠ st.current_index) ∧
    (∀ (files : List String) (st : RotationState) (ch : List Nat → Nat)
        (wp : String) (st' : RotationState),
      files.length = 1 →
      get_next_wallpaper files st "random" ch = some (wp, st') →
      st'.current_index = 0) := by
  constructor
  · intro files st ch wp st' hc hN hcount heq
    have hne : files ≠ [] := by
      intro h
      subst h
      simp at hN
    rw [get_next_eq files st "random" ch hne] at heq
    injection heq with hpair
    injection hpair with hwp hstEq
    subst hstEq
    dsimp only
    have hdc : drift_checked_index files st = st.current_index := by
      unfold drift_checked_index
      rw [if_neg (fun h => h hcount)]
    rw [hdc]
    unfold next_index_for
    rw [if_pos rfl, if_pos hN]
    have hmem := hc _ (candidates_ne_nil files.length st.current_index hN)
    exact of_decide_eq_true (List.mem_filter.mp hmem).2
  · intro files st ch wp st' h1 heq
    have hne : files ≠ [] := by
      intro h
      subst h
      simp at h1
    rw [get_next_eq files st "random" ch hne] at heq
    injection heq with hpair
    injection hpair with hwp hstEq
    subst hstEq
    dsimp only
    unfold next_index_for
    rw [if_pos rfl, if_neg (by omega)]
    rfl

theorem random_no_repeat_amended_witness :
    (RotationState.mk 0 (some "a") 3 "random").current_index ≠
      (RotationState.mk 1 none 3 "random").current_index ∧
    (RotationState.mk 0 (some "z") 1 "random").current_index = 0 :=
  ⟨random_no_repeat_amended.1 ["a", "b", "c"] (RotationState.mk 1 none 3 "random")
      headChoice "a" (RotationState.mk 0 (some "a") 3 "random")
      headChoice_mem (by decide) (by decide) (by decide),
   random_no_repeat_amended.2 ["z"] (RotationState.mk 5 none 9 "x")
      headChoice "z" (RotationState.mk 0 (some "z") 1 "random")
      (by decide) (by decide)⟩

/-- C9: every state written by a mutating operation satisfies the §3
invariant — `current_index` is `-1` or strictly below the `image_count`
recorded alongside it — and inside `get_next_wallpaper` the working index
is reset to `-1` whenever the live image count differs from the persisted
`image_count`.  The four conjuncts cover the state saved by
`get_next_wallpaper`, the state saved by `set_order` (which leaves both
fields untouched), the state saved by `reset_rotation`, and the drift
reset. -/
theorem state_invariant_preserved :
    (∀ (files : List String) (st : RotationState) (order : String)
        (ch : List Nat → Nat) (wp : String) (st' : RotationState),
      (∀ l : List Nat, l ≠ [] → ch l ∈ l) →
      get_next_wallpaper files st order ch = some (wp, st') →
      stateInvariant st') ∧
    (∀ (st st' : RotationState) (order : String),
      stateInvariant st → set_order st order = some st' → stateInvariant st') ∧
    (∀ st : RotationState, stateInvariant (reset_rotation st)) ∧
    (∀ (files : List String) (st : RotationState),
      (files.length : Int) ≠ st.image_count →
      drift_checked_index files st = -1) := by
  refine ⟨?_, ?_, ?_, ?_⟩
  · intro files st order ch wp st' hc heq
    have hne : files ≠ [] := by
      intro h
      subst h
      exact Option.noConfusion heq
    rw [get_next_eq files st order ch hne] at heq
    injection heq with hpair
    injection hpair with hwp hstEq
    subst hstEq
    right
    dsimp only
    exact_mod_cast next_index_for_lt files.length
      (drift_checked_index files st) order ch (List.length_pos.mpr hne) hc
  · intro st st' order hinv heq
    unfold set_order at heq
    split_ifs at heq
    injection heq with hstEq
    subst hstEq
    exact hinv
  · intro st
    exact Or.inl rfl
  · intro files st h
    exact if_pos h

theorem state_invariant_preserved_witness :
    stateInvariant
      { current_index := 0, last_wallpaper := some "a",
        image_count := 1, order := "sequential" } ∧
    stateInvariant
      { current_index := -1, last_wallpaper := none,
        image_count := 0, order := "random" } ∧
    stateInvariant (reset_rotation default_state) ∧
    drift_checked_index ["a"]
      { current_index := 0, last_wallpaper := none,
        image_count := 5, order := "sequential" } = -1 :=
  ⟨state_invariant_preserved.1 ["a"] default_state "sequential" headChoice "a"
      { current_index := 0, last_wallpaper := some "a",
        image_count := 1, order := "sequential" } headChoice_mem (by decide),
   state_invariant_preserved.2.1 default_state
      { current_index := -1, last_wallpaper := none,
        image_count := 0, order := "random" } "random" (by decide) (by decide),
   state_invariant_preserved.2.2.1 default_state,
   state_invariant_preserved.2.2.2 ["a"]
      { current_index := 0, last_wallpaper := none,
        image_count := 5, order := "sequential" } (by decide)⟩

/-- C6: the applier is total (all Python exceptions are caught and mapped
to `False`, so `set_wallpaper` is a function into `Bool`), the
multi-desktop PowerShell tier is attempted exactly once and first, the
native single-desktop tier is attempted exactly once precisely when the
multi-desktop tier did not succeed (module missing, command missing,
PowerShell error, timeout, or execution error), and the overall result is
`false` exactly when both tiers failed. -/
theorem apply_fallback_structure (run : PSRun) (native : NativeCall) :
    (set_wallpaper_run run native).2 =
      (if set_wallpaper_all_desktops_powershell run then [Tier.multi]
       else [Tier.multi, Tier.single]) ∧
    (set_wallpaper run native = false ↔
      set_wallpaper_all_desktops_powershell run = false ∧
      native_call_succeeded native = false) := by
  cases hps : set_wallpaper_all_desktops_powershell run <;> cases native <;>
    simp [set_wallpaper, set_wallpaper_run, native_call_succeeded, hps]
